import Mathlib

/-!
Verification of the TFTPy protocol engine (src/tftp.py, src/server.py).

Shallow embedding conventions:
* Python `bytes` values are modelled as `List Nat`; every byte produced by the
  code is < 256.  Python `str` values appear only as ASCII-printable payloads
  (filenames, modes, error messages), so they are modelled as the byte lists
  their `encode()` produces; `decode()` is the identity on that domain.
* `struct.pack`/`struct.unpack` with format `!H` is modelled by `pack_u16` /
  `unpack_u16`; `struct.error` and the repository's `TFTPValueError` and the
  `ValueError` raised by `bytes.index` become constructors of `PackErr` /
  `DecodeErr`, and fallible functions return `Except`.
* The transfer loops are modelled as functions over an explicit list of
  receive events (`RecvEvent`): each `recvfrom` call consumes one event, an
  empty list behaving as a timeout (no packet ever arrives).
-/

namespace TFTPy

/-- MAX_DATA_LEN = 512 (tftp.py line 61). -/
def MAX_DATA_LEN : Nat := 512

/-- DEFAULT_BUFFER_SIZE = 8192 (tftp.py line 65). -/
def DEFAULT_BUFFER_SIZE : Nat := 8192

/-- MAX_RETRIES = 5 (tftp.py line 63). -/
def MAX_RETRIES : Nat := 5

/-- DEFAULT_MODE = "octet" (tftp.py line 62), as its encoded bytes. -/
def DEFAULT_MODE : List Nat := [111, 99, 116, 101, 116]

/-- The TFTPOpcode enum (tftp.py lines 71-87). -/
inductive TFTPOpcode
  | RRQ
  | WRQ
  | DATA
  | ACK
  | ERROR
  | OACK
deriving DecidableEq, Repr

/-- Numeric value of each opcode, as in the Python enum. -/
def TFTPOpcode.value : TFTPOpcode → Nat
  | .RRQ => 1
  | .WRQ => 2
  | .DATA => 3
  | .ACK => 4
  | .ERROR => 5
  | .OACK => 6

/-- TFTPOpcode(n): the enum member with value n, if any. -/
def TFTPOpcode.ofValue : Nat → Option TFTPOpcode
  | 1 => some .RRQ
  | 2 => some .WRQ
  | 3 => some .DATA
  | 4 => some .ACK
  | 5 => some .ERROR
  | 6 => some .OACK
  | _ => none

/-- Exceptions raised while building a packet: the repository's
TFTPValueError, and struct.error from struct.pack. -/
inductive PackErr
  | tftpValueError
  | structError
deriving DecidableEq, Repr

/-- Exceptions raised while decoding a packet: the repository's
TFTPValueError, struct.error from struct.unpack, and the plain ValueError
raised by bytes.index when no delimiter is found. -/
inductive DecodeErr
  | tftpValueError
  | structError
  | valueError
deriving DecidableEq, Repr

/-- Membership of a byte in Python's string.printable (digits, letters,
punctuation, space and the whitespace characters tab, LF, VT, FF, CR):
exactly the byte ranges 32-126 and 9-13. -/
def printableByte (b : Nat) : Bool := (32 ≤ b && b ≤ 126) || (9 ≤ b && b ≤ 13)

/-- is_ascii_printable (tftp.py lines 609-612): set of characters a subset of
string.printable. -/
def is_ascii_printable (txt : List Nat) : Bool := txt.all printableByte

/-- struct.pack with format !H: two-byte big-endian; struct.error unless
0 <= n <= 65535. -/
def pack_u16 (n : Nat) : Except PackErr (List Nat) :=
  if n < 65536 then Except.ok [n / 256, n % 256] else Except.error PackErr.structError

/-- struct.unpack with format !H: requires a buffer of exactly two bytes. -/
def unpack_u16 : List Nat → Except DecodeErr Nat
  | [a, b] => Except.ok (a * 256 + b)
  | _ => Except.error DecodeErr.structError

/-- bytes.index(0, 2) (tftp.py line 434): index of the first NUL byte at
position >= 2, ValueError if there is none.  `indexOfZero` is the search
over the tail. -/
def indexOfZero : List Nat → Option Nat
  | [] => none
  | b :: bs => if b = 0 then some 0 else (indexOfZero bs).map (· + 1)

/-- packet.index(0, 2): absolute index of the first NUL at offset >= 2. -/
def bytes_index_zero_from2 (packet : List Nat) : Except DecodeErr Nat :=
  match indexOfZero (packet.drop 2) with
  | some i => Except.ok (2 + i)
  | none => Except.error DecodeErr.valueError

/-- The body of the source `_pack_rq` (tftp.py lines 411-419): reject a
non-ASCII-printable filename, then pack opcode, NUL-terminated filename and
NUL-terminated mode. -/
def pack_rq_impl (opcode : TFTPOpcode) (filename : List Nat)
    (mode : List Nat := DEFAULT_MODE) : Except PackErr (List Nat) :=
  if is_ascii_printable filename = false then Except.error PackErr.tftpValueError
  else
    match pack_u16 opcode.value with
    | Except.error e => Except.error e
    | Except.ok op => Except.ok (op ++ filename ++ [0] ++ mode ++ [0])

/-- pack_rrq (tftp.py lines 403-405). -/
def pack_rrq (filename : List Nat) (mode : List Nat := DEFAULT_MODE) :
    Except PackErr (List Nat) :=
  pack_rq_impl TFTPOpcode.RRQ filename mode

/-- pack_wrq (tftp.py lines 407-409). -/
def pack_wrq (filename : List Nat) (mode : List Nat := DEFAULT_MODE) :
    Except PackErr (List Nat) :=
  pack_rq_impl TFTPOpcode.WRQ filename mode

/-- unpack_opcode (tftp.py lines 441-450): big-endian u16 from the first two
bytes, TFTPValueError if it is not a TFTPOpcode value. -/
def unpack_opcode (packet : List Nat) : Except DecodeErr TFTPOpcode :=
  match unpack_u16 (packet.take 2) with
  | Except.error e => Except.error e
  | Except.ok opcode =>
    match TFTPOpcode.ofValue opcode with
    | some op => Except.ok op
    | none => Except.error DecodeErr.tftpValueError

/-- The body of the source `_unpack_rq` (tftp.py lines 430-438): check the
opcode, locate the first NUL at index >= 2, return the filename slice
packet[2:delim] and the mode slice packet[delim+1:-1]. -/
def unpack_rq_impl (expected_opcode : TFTPOpcode) (packet : List Nat) :
    Except DecodeErr (List Nat × List Nat) :=
  match unpack_opcode packet with
  | Except.error e => Except.error e
  | Except.ok received_opcode =>
    if received_opcode.value ≠ expected_opcode.value then
      Except.error DecodeErr.tftpValueError
    else
      match bytes_index_zero_from2 packet with
      | Except.error e => Except.error e
      | Except.ok delim_pos =>
        Except.ok ((packet.drop 2).take (delim_pos - 2),
                   (packet.drop (delim_pos + 1)).dropLast)

/-- unpack_rrq (tftp.py lines 422-424). -/
def unpack_rrq (packet : List Nat) : Except DecodeErr (List Nat × List Nat) :=
  unpack_rq_impl TFTPOpcode.RRQ packet

/-- unpack_wrq (tftp.py lines 426-428). -/
def unpack_wrq (packet : List Nat) : Except DecodeErr (List Nat × List Nat) :=
  unpack_rq_impl TFTPOpcode.WRQ packet

/-- pack_dat (tftp.py lines 453-460): TFTPValueError if the payload exceeds
512 bytes, then struct.pack of opcode, block number and payload. -/
def pack_dat (block_number : Nat) (data : List Nat) : Except PackErr (List Nat) :=
  if data.length > MAX_DATA_LEN then Except.error PackErr.tftpValueError
  else
    match pack_u16 TFTPOpcode.DATA.value, pack_u16 block_number with
    | Except.ok op, Except.ok bn => Except.ok (op ++ bn ++ data)
    | Except.error e, _ => Except.error e
    | _, Except.error e => Except.error e

/-- unpack_dat (tftp.py lines 463-468): struct.unpack !HH of the first four
bytes (struct.error if fewer), TFTPValueError on a wrong opcode, payload is
the rest. -/
def unpack_dat (packet : List Nat) : Except DecodeErr (Nat × List Nat) :=
  match packet.take 4 with
  | [a, b, c, d] =>
    if a * 256 + b ≠ TFTPOpcode.DATA.value then Except.error DecodeErr.tftpValueError
    else Except.ok (c * 256 + d, packet.drop 4)
  | _ => Except.error DecodeErr.structError

/-- pack_ack (tftp.py lines 471-473). -/
def pack_ack (block_number : Nat) : Except PackErr (List Nat) :=
  match pack_u16 TFTPOpcode.ACK.value, pack_u16 block_number with
  | Except.ok op, Except.ok bn => Except.ok (op ++ bn)
  | Except.error e, _ => Except.error e
  | _, Except.error e => Except.error e

/-- unpack_ack (tftp.py lines 475-479): TFTPValueError if longer than four
bytes, otherwise struct.unpack !H of packet[2:4] (struct.error if that slice
is shorter than two bytes); the opcode bytes are never inspected. -/
def unpack_ack (packet : List Nat) : Except DecodeErr Nat :=
  if packet.length > 4 then Except.error DecodeErr.tftpValueError
  else unpack_u16 ((packet.drop 2).take 2)

/-- pack_err (tftp.py lines 482-489): TFTPValueError on a non-printable
message, then struct.pack of opcode, error number and NUL-terminated
message. -/
def pack_err (error_num : Nat) (error_msg : List Nat) : Except PackErr (List Nat) :=
  if is_ascii_printable error_msg = false then Except.error PackErr.tftpValueError
  else
    match pack_u16 TFTPOpcode.ERROR.value, pack_u16 error_num with
    | Except.ok op, Except.ok en => Except.ok (op ++ en ++ error_msg ++ [0])
    | Except.error e, _ => Except.error e
    | _, Except.error e => Except.error e

/-- unpack_err (tftp.py lines 491-497): struct.unpack !HH plus a string of
the remaining length applied to the whole packet (struct.error when shorter
than four bytes), TFTPValueError on a wrong opcode, message is the remainder
with its final byte stripped positionally. -/
def unpack_err (packet : List Nat) : Except DecodeErr (Nat × List Nat) :=
  match packet with
  | a :: b :: c :: d :: rest =>
    if a * 256 + b ≠ TFTPOpcode.ERROR.value then Except.error DecodeErr.tftpValueError
    else Except.ok (c * 256 + d, rest.dropLast)
  | _ => Except.error DecodeErr.structError

/-! ### Transfer loops

The loops of tftp.py are modelled as functions over an explicit list of
receive events: each `recvfrom` call consumes one event, and an exhausted
event list behaves as a timeout (no further packet ever arrives).  ACKs sent
on the socket are recorded as the list of their block numbers (every block
number the code ever packs fits in 16 bits, so `pack_ack` never fails on
them). -/

/-- One socket receive: either recvfrom raised TimeoutError, or it returned
a packet. -/
inductive RecvEvent
  | timeout
  | pkt (p : List Nat)

/-- Outcome of the inner wait-for-ACK loop shared by server_send_file
(tftp.py lines 157-186) and client_put_file (lines 360-385): a matching ACK
(break), an ERROR packet from the peer (return), the retry budget exhausted
(the for-else), or an exception from unpack_opcode/unpack_ack/unpack_err
propagating out of the function. -/
inductive SendWaitStatus
  | ackOk
  | peerError
  | maxRetries
  | uncaught
deriving DecidableEq, Repr

/-- The inner `for attempt in range(MAX_RETRIES)` loop of server_send_file
(tftp.py lines 157-186; client_put_file lines 360-385 are identical in
structure).  Every iteration begins by sending the DATA packet, so the
result also counts how many times it was transmitted.  A timeout, an ACK
with the wrong block number and a non-ACK non-ERROR opcode all `continue`
to the next iteration of the retry loop. -/
def send_wait (block_number : Nat) : Nat → List RecvEvent → Nat → SendWaitStatus × Nat
  | 0, _, sends => (SendWaitStatus.maxRetries, sends)
  | fuel + 1, events, sends =>
    match events with
    | [] => send_wait block_number fuel [] (sends + 1)
    | RecvEvent.timeout :: rest => send_wait block_number fuel rest (sends + 1)
    | RecvEvent.pkt packet :: rest =>
      match unpack_opcode packet with
      | Except.error _ => (SendWaitStatus.uncaught, sends + 1)
      | Except.ok TFTPOpcode.ACK =>
        match unpack_ack packet with
        | Except.error _ => (SendWaitStatus.uncaught, sends + 1)
        | Except.ok ack_block =>
          if ack_block = block_number then (SendWaitStatus.ackOk, sends + 1)
          else send_wait block_number fuel rest (sends + 1)
      | Except.ok TFTPOpcode.ERROR =>
        match unpack_err packet with
        | Except.error _ => (SendWaitStatus.uncaught, sends + 1)
        | Except.ok _ => (SendWaitStatus.peerError, sends + 1)
      | Except.ok _ => send_wait block_number fuel rest (sends + 1)

/-- Outcome of server_receive_file's while-loop (tftp.py lines 207-244):
success on a short block, return on a timeout, return on a peer ERROR, or
an exception from the unpackers propagating. -/
inductive RecvOutcome
  | success
  | timeoutAbort
  | peerError
  | uncaught
deriving DecidableEq, Repr

/-- The while-loop of server_receive_file (tftp.py lines 207-244), carrying
the bytes written to the destination file and the block numbers that have
been acknowledged.  A DATA block equal to next_block_number is written and
acknowledged (terminating the loop with success if its payload is shorter
than 512 bytes); a DATA block equal to next_block_number - 1 is
re-acknowledged without writing; any other DATA block number is logged and
the loop keeps waiting; a timeout or a peer ERROR returns. -/
def server_receive_loop (next_block_number : Nat) (file : List Nat) (acks : List Nat) :
    List RecvEvent → RecvOutcome × List Nat × List Nat
  | [] => (RecvOutcome.timeoutAbort, file, acks)
  | RecvEvent.timeout :: _ => (RecvOutcome.timeoutAbort, file, acks)
  | RecvEvent.pkt packet :: rest =>
    match unpack_opcode packet with
    | Except.error _ => (RecvOutcome.uncaught, file, acks)
    | Except.ok TFTPOpcode.DATA =>
      match unpack_dat packet with
      | Except.error _ => (RecvOutcome.uncaught, file, acks)
      | Except.ok (data_block_num, data) =>
        if data_block_num = next_block_number then
          if data.length < MAX_DATA_LEN then
            (RecvOutcome.success, file ++ data, acks ++ [next_block_number])
          else
            server_receive_loop (next_block_number + 1) (file ++ data)
              (acks ++ [next_block_number]) rest
        else if data_block_num = next_block_number - 1 then
          server_receive_loop next_block_number file (acks ++ [data_block_num]) rest
        else
          server_receive_loop next_block_number file acks rest
    | Except.ok TFTPOpcode.ERROR =>
      match unpack_err packet with
      | Except.error _ => (RecvOutcome.uncaught, file, acks)
      | Except.ok _ => (RecvOutcome.peerError, file, acks)
    | Except.ok _ => server_receive_loop next_block_number file acks rest

/-- server_receive_file (tftp.py lines 196-254): ACK(0) is sent before the
loop, next_block_number starts at 1, and the finally-block removes the
destination file whenever the loop did not reach success.  The Option in
the result is the destination file a caller can observe afterwards. -/
def server_receive_file (events : List RecvEvent) :
    RecvOutcome × Option (List Nat) × List Nat :=
  match server_receive_loop 1 [] [0] events with
  | (RecvOutcome.success, file, acks) => (RecvOutcome.success, some file, acks)
  | (outcome, _, acks) => (outcome, none, acks)

/-- Outcome of client_get_file (tftp.py lines 264-321): the successful
return value block_number * DEFAULT_BUFFER_SIZE + len(data), a raised
ProtocolError, a raised Err from a peer ERROR packet, a TimeoutError from
recvfrom (which is not caught in this function), or another exception from
the unpackers. -/
inductive CliOutcome
  | success (retval : Nat)
  | protocolError
  | peerError
  | timeoutExn
  | uncaught
deriving DecidableEq, Repr

/-- The while-loop of client_get_file (tftp.py lines 282-313).  A DATA block
equal to next_block_number is written and the counter advances; one equal to
next_block_number - 1 is not written; any other block number raises
ProtocolError.  In the first two cases an ACK for the received block number
is sent and a payload shorter than 512 bytes ends the transfer successfully,
returning block_number * DEFAULT_BUFFER_SIZE + len(data).  A non-DATA
non-ERROR opcode raises ProtocolError; an ERROR packet raises Err. -/
def client_get_loop (next_block_number : Nat) (file : List Nat) (acks : List Nat) :
    List RecvEvent → CliOutcome × List Nat × List Nat
  | [] => (CliOutcome.timeoutExn, file, acks)
  | RecvEvent.timeout :: _ => (CliOutcome.timeoutExn, file, acks)
  | RecvEvent.pkt packet :: rest =>
    match unpack_opcode packet with
    | Except.error _ => (CliOutcome.uncaught, file, acks)
    | Except.ok TFTPOpcode.DATA =>
      match unpack_dat packet with
      | Except.error _ => (CliOutcome.uncaught, file, acks)
      | Except.ok (block_number, data) =>
        if block_number = next_block_number then
          if data.length < MAX_DATA_LEN then
            (CliOutcome.success (block_number * DEFAULT_BUFFER_SIZE + data.length),
             file ++ data, acks ++ [block_number])
          else
            client_get_loop (next_block_number + 1) (file ++ data)
              (acks ++ [block_number]) rest
        else if block_number = next_block_number - 1 then
          if data.length < MAX_DATA_LEN then
            (CliOutcome.success (block_number * DEFAULT_BUFFER_SIZE + data.length),
             file, acks ++ [block_number])
          else
            client_get_loop next_block_number file (acks ++ [block_number]) rest
        else
          (CliOutcome.protocolError, file, acks)
    | Except.ok TFTPOpcode.ERROR =>
      match unpack_err packet with
      | Except.error _ => (CliOutcome.uncaught, file, acks)
      | Except.ok _ => (CliOutcome.peerError, file, acks)
    | Except.ok _ => (CliOutcome.protocolError, file, acks)

/-- client_get_file (tftp.py lines 264-321): next_block_number starts at 1
and the finally-block removes the local file whenever success was not
reached; only a successful return leaves the destination file observable. -/
def client_get_file (events : List RecvEvent) :
    CliOutcome × Option (List Nat) × List Nat :=
  match client_get_loop 1 [] [] events with
  | (CliOutcome.success v, file, acks) => (CliOutcome.success v, some file, acks)
  | (outcome, _, acks) => (outcome, none, acks)

/-- Whether a client_get_file outcome is the successful-return case. -/
def CliOutcome.isSuccess : CliOutcome → Bool
  | CliOutcome.success _ => true
  | _ => false

/-- The block-number update applied after a matching ACK in the send loops
(tftp.py line 190 in server_send_file and line 387 in client_put_file):
block_number % 65535 + 1, wrapping 65535 to 1. -/
def send_next_block (block_number : Nat) : Nat := block_number % 65535 + 1

/-- The DATA blocks transmitted by the data phase of client_put_file
(tftp.py lines 353-388) when every block is acknowledged on first try:
each iteration reads the next chunk of at most 512 bytes and, if the chunk
is empty, breaks out of the loop BEFORE sending anything — even for the very
first chunk of a zero-length source. -/
def client_put_blocks (next_block_number : Nat) (content : List Nat) :
    List (Nat × List Nat) :=
  match content with
  | [] => []
  | b :: bs =>
    (next_block_number, (b :: bs).take MAX_DATA_LEN) ::
      client_put_blocks (send_next_block next_block_number) ((b :: bs).drop MAX_DATA_LEN)
termination_by content.length
decreasing_by simp [MAX_DATA_LEN]; omega

/-- TFTPError.ACCESS_VIOLATION.value[0] (tftp.py line 99). -/
def ACCESS_VIOLATION : Nat := 2

/-- TFTPError.ILLEGAL_OPERATION.value[0] (tftp.py line 101). -/
def ILLEGAL_OPERATION : Nat := 4

/-- The bytes of the message "Invalid filename." (server.py lines 208, 222). -/
def INVALID_FILENAME_MSG : List Nat :=
  [73, 110, 118, 97, 108, 105, 100, 32, 102, 105, 108, 101, 110, 97, 109, 101, 46]

/-- The bytes of the message "Illegal TFTP operation." (server.py line 229). -/
def ILLEGAL_OPERATION_MSG : List Nat :=
  [73, 108, 108, 101, 103, 97, 108, 32, 84, 70, 84, 80, 32, 111, 112, 101, 114, 97, 116,
   105, 111, 110, 46]

/-- What do_request does with an inbound request, observable from outside:
send an ERROR packet, serve the directory listing, return without any reply
or transfer, or let an unpacker exception escape (killing the handler thread
with no reply). -/
inductive DoReqAction
  | errPacket (code : Nat) (msg : List Nat)
  | dirListing
  | noAction
  | uncaught
deriving DecidableEq, Repr

/-- do_request (server.py lines 199-232).  RRQ: a non-ASCII-printable
filename is answered with ERROR ACCESS_VIOLATION, an empty filename serves
the directory listing, and any other filename falls off the end of the
branch — the send_file call is commented out and no path resolution is
performed.  WRQ: same validation, and every accepted filename falls off the
end — receive_file is commented out.  Any other opcode is answered with
ERROR ILLEGAL_OPERATION. -/
def do_request (data : List Nat) : DoReqAction :=
  match unpack_opcode data with
  | Except.error _ => DoReqAction.uncaught
  | Except.ok TFTPOpcode.RRQ =>
    match unpack_rrq data with
    | Except.error _ => DoReqAction.uncaught
    | Except.ok (filename, _mode) =>
      if is_ascii_printable filename = false then
        DoReqAction.errPacket ACCESS_VIOLATION INVALID_FILENAME_MSG
      else if filename = [] then DoReqAction.dirListing
      else DoReqAction.noAction
  | Except.ok TFTPOpcode.WRQ =>
    match unpack_wrq data with
    | Except.error _ => DoReqAction.uncaught
    | Except.ok (filename, _mode) =>
      if is_ascii_printable filename = false then
        DoReqAction.errPacket ACCESS_VIOLATION INVALID_FILENAME_MSG
      else DoReqAction.noAction
  | Except.ok _ => DoReqAction.errPacket ILLEGAL_OPERATION ILLEGAL_OPERATION_MSG

/-! ### Helper lemmas about the codec -/

theorem printable_ne_zero (f : List Nat) (hf : is_ascii_printable f = true) :
    ∀ b ∈ f, b ≠ 0 := by
  intro b hb h0
  subst h0
  have hp := List.all_eq_true.mp hf 0 hb
  exact absurd hp (by decide)

theorem indexOfZero_append (f rest : List Nat) (hf : ∀ b ∈ f, b ≠ 0) :
    indexOfZero (f ++ 0 :: rest) = some f.length := by
  induction f with
  | nil => simp [indexOfZero]
  | cons a as ih =>
    have ha : a ≠ 0 := hf a (by simp)
    simp [indexOfZero, ha, ih (fun b hb => hf b (by simp [hb]))]

theorem indexOfZero_eq_none (l : List Nat) (h : ∀ b ∈ l, b ≠ 0) :
    indexOfZero l = none := by
  induction l with
  | nil => rfl
  | cons a as ih =>
    simp [indexOfZero, h a (by simp), ih (fun b hb => h b (by simp [hb]))]

theorem take_length_append (l r : List Nat) : (l ++ r).take l.length = l := by
  simp

theorem drop_length_append (l r : List Nat) : (l ++ r).drop l.length = r := by
  simp

theorem dropLast_append_single (l : List Nat) (a : Nat) : (l ++ [a]).dropLast = l := by
  simp

/-- Unpacking a well-formed request packet of either kind recovers the
filename and the mode, provided the filename contains no NUL byte. -/
theorem unpack_rq_impl_ok (op : TFTPOpcode) (f m : List Nat) (hf : ∀ b ∈ f, b ≠ 0) :
    unpack_rq_impl op ([0, op.value] ++ f ++ [0] ++ m ++ [0]) = Except.ok (f, m) := by
  have hof : TFTPOpcode.ofValue op.value = some op := by cases op <;> rfl
  have hdrop2 : ([0, op.value] ++ f ++ [0] ++ m ++ [0]).drop 2 = f ++ 0 :: (m ++ [0]) := by
    simp
  have hidx : bytes_index_zero_from2 ([0, op.value] ++ f ++ [0] ++ m ++ [0]) =
      Except.ok (2 + f.length) := by
    rw [bytes_index_zero_from2, hdrop2, indexOfZero_append f (m ++ [0]) hf]
  have hopc : unpack_opcode ([0, op.value] ++ f ++ [0] ++ m ++ [0]) = Except.ok op := by
    simp only [unpack_opcode, List.cons_append, List.take_succ_cons, List.take_zero,
      unpack_u16, Nat.zero_mul, Nat.zero_add, hof]
  rw [unpack_rq_impl, hopc]
  simp only [ne_eq, not_true_eq_false, if_false, hidx]
  have h1 : 2 + f.length - 2 = f.length := by omega
  have h2 : ([0, op.value] ++ f ++ [0] ++ m ++ [0]).drop (2 + f.length + 1) = m ++ [0] := by
    have : [0, op.value] ++ f ++ [0] ++ m ++ [0] = ([0, op.value] ++ f ++ [0]) ++ (m ++ [0]) := by
      simp
    rw [this]
    have hlen : ([0, op.value] ++ f ++ [0]).length = 2 + f.length + 1 := by
      simp; omega
    rw [← hlen, drop_length_append]
  rw [hdrop2, h1, take_length_append, h2, dropLast_append_single]

/-- C1: Codec round-trip — for every valid packet of each opcode (RRQ/WRQ
with ASCII-printable filename, DATA with payload of at most 512 bytes, ACK,
ERROR with ASCII-printable message), decoding the encoding yields the packet
again: whenever the packer succeeds, the matching unpacker returns exactly
the packed fields. -/
theorem C1_codec_roundtrip :
    (∀ f m p, pack_rrq f m = Except.ok p → unpack_rrq p = Except.ok (f, m)) ∧
    (∀ f m p, pack_wrq f m = Except.ok p → unpack_wrq p = Except.ok (f, m)) ∧
    (∀ n d p, pack_dat n d = Except.ok p → unpack_dat p = Except.ok (n, d)) ∧
    (∀ n p, pack_ack n = Except.ok p → unpack_ack p = Except.ok n) ∧
    (∀ c s p, pack_err c s = Except.ok p → unpack_err p = Except.ok (c, s)) := by
  have hrq : ∀ (op : TFTPOpcode) f m p, op.value < 256 →
      pack_rq_impl op f m = Except.ok p → unpack_rq_impl op p = Except.ok (f, m) := by
    intro op f m p hv h
    by_cases hpr : is_ascii_printable f = true
    · have hval : op.value < 65536 := by omega
      simp [pack_rq_impl, hpr, pack_u16, hval] at h
      have hd : op.value / 256 = 0 := Nat.div_eq_of_lt hv
      have hm : op.value % 256 = op.value := Nat.mod_eq_of_lt hv
      rw [hd, hm] at h
      rw [← h]
      simpa using unpack_rq_impl_ok op f m (printable_ne_zero f hpr)
    · simp [pack_rq_impl, eq_false_of_ne_true hpr] at h
  refine ⟨?_, ?_, ?_, ?_, ?_⟩
  · intro f m p h
    exact hrq TFTPOpcode.RRQ f m p (by decide) h
  · intro f m p h
    exact hrq TFTPOpcode.WRQ f m p (by decide) h
  · intro n d p h
    by_cases hlen : d.length > MAX_DATA_LEN
    · simp [pack_dat, hlen] at h
    · by_cases hn : n < 65536
      · simp [pack_dat, hlen, pack_u16, hn, TFTPOpcode.value] at h
        rw [← h]
        have h4 : ([0, 3] ++ [n / 256, n % 256] ++ d).take 4 = [0, 3, n / 256, n % 256] := by
          simp
        rw [unpack_dat]
        simp only [List.cons_append, List.nil_append, List.take_succ_cons, List.take_zero]
        rw [if_neg (by simp [TFTPOpcode.value])]
        have hdm : n / 256 * 256 + n % 256 = n := by omega
        simp [hdm]
      · simp [pack_dat, hlen, pack_u16, hn, TFTPOpcode.value] at h
  · intro n p h
    by_cases hn : n < 65536
    · simp [pack_ack, pack_u16, hn, TFTPOpcode.value] at h
      rw [← h]
      rw [unpack_ack]
      rw [if_neg (by simp)]
      have hdm : n / 256 * 256 + n % 256 = n := by omega
      simp [unpack_u16, hdm]
    · simp [pack_ack, pack_u16, hn, TFTPOpcode.value] at h
  · intro c s p h
    by_cases hpr : is_ascii_printable s = true
    · by_cases hc : c < 65536
      · simp [pack_err, hpr, pack_u16, hc, TFTPOpcode.value] at h
        rw [← h]
        rw [unpack_err.eq_def]
        simp only [List.cons_append, List.nil_append]
        rw [if_neg (by simp [TFTPOpcode.value])]
        have hdm : c / 256 * 256 + c % 256 = c := by omega
        simp [hdm, dropLast_append_single]
      · simp [pack_err, hpr, pack_u16, hc, TFTPOpcode.value] at h
    · simp [pack_err, eq_false_of_ne_true hpr] at h

/-- Witness for C1: each round-trip instantiated at a concrete valid packet. -/
theorem C1_codec_roundtrip_witness :
    unpack_rrq [0, 1, 97, 0, 111, 99, 116, 101, 116, 0] = Except.ok ([97], DEFAULT_MODE) ∧
    unpack_wrq [0, 2, 97, 0, 111, 99, 116, 101, 116, 0] = Except.ok ([97], DEFAULT_MODE) ∧
    unpack_dat [0, 3, 0, 7, 65] = Except.ok (7, [65]) ∧
    unpack_ack [0, 4, 0, 7] = Except.ok 7 ∧
    unpack_err [0, 5, 0, 2, 65, 0] = Except.ok (2, [65]) :=
  ⟨C1_codec_roundtrip.1 [97] DEFAULT_MODE [0, 1, 97, 0, 111, 99, 116, 101, 116, 0] rfl,
   C1_codec_roundtrip.2.1 [97] DEFAULT_MODE [0, 2, 97, 0, 111, 99, 116, 101, 116, 0] rfl,
   C1_codec_roundtrip.2.2.1 7 [65] [0, 3, 0, 7, 65] rfl,
   C1_codec_roundtrip.2.2.2.1 7 [0, 4, 0, 7] rfl,
   C1_codec_roundtrip.2.2.2.2 2 [65] [0, 5, 0, 2, 65, 0] rfl⟩

set_option maxRecDepth 16384 in
/-- C2: The receive loop does NOT wrap block numbers.  The claim says that
after accepting and acknowledging block 65535 a DATA packet with block
number 1 is accepted as the next expected block.  In the code the sender
side wraps (block_number % 65535 + 1 maps 65535 to 1, first conjunct), but
server_receive_file increments next_block_number without any modulus, so
after accepting block 65535 it expects block 65536 — which no 16-bit wire
packet can carry — and a subsequent DATA(1) is rejected as an invalid block
number: it is neither written nor acknowledged, and the transfer then dies
on the next timeout with the partial file removed (second conjunct: the
trace accepts a full block 65535, then ignores DATA(1, [7]), acknowledging
only blocks 0 and 65535 and never writing the byte 7). -/
theorem C2_receive_wraparound_bug :
    send_next_block 65535 = 1 ∧
    server_receive_loop 65535 [] [0]
      [RecvEvent.pkt ([0, 3, 255, 255] ++ List.replicate 512 66),
       RecvEvent.pkt [0, 3, 0, 1, 7]]
      = (RecvOutcome.timeoutAbort, List.replicate 512 66, [0, 65535]) :=
  ⟨rfl, rfl⟩

/-- C3: Zero-length PUT sends no DATA packet at all.  The claim says a PUT
of a 0-byte file sends exactly one DATA packet with block number 1 and an
empty payload, and that the final transmitted DATA block is always strictly
shorter than 512 bytes.  client_put_file breaks out of its send loop as
soon as a read returns no bytes, BEFORE sending anything — even on the very
first read — so a 0-byte source produces no DATA block (first conjunct),
and a source of exactly 512 bytes produces a single full-size DATA block
with no empty terminating block after it (second conjunct). -/
theorem C3_zero_length_put_bug :
    client_put_blocks 1 [] = [] ∧
    (∀ content : List Nat, content.length = 512 → content ≠ [] →
      client_put_blocks 1 content = [(1, content)]) := by
  constructor
  · rw [client_put_blocks]
  · intro content h1 h2
    obtain ⟨b, bs, rfl⟩ := List.exists_cons_of_ne_nil h2
    simp only [List.length_cons] at h1
    rw [client_put_blocks.eq_def]
    have ht : (b :: bs).take MAX_DATA_LEN = b :: bs := by
      apply List.take_of_length_le
      simp [MAX_DATA_LEN]
      omega
    have hd : (b :: bs).drop MAX_DATA_LEN = [] := by
      apply List.drop_eq_nil_of_le
      simp [MAX_DATA_LEN]
      omega
    simp [ht, hd, client_put_blocks]

set_option maxRecDepth 16384 in
/-- Witness for C3: the 512-byte case instantiated at a concrete source. -/
theorem C3_zero_length_put_bug_witness :
    client_put_blocks 1 (65 :: List.replicate 511 65) = [(1, 65 :: List.replicate 511 65)] :=
  C3_zero_length_put_bug.2 (65 :: List.replicate 511 65) (by simp) (by simp)

/-- C4 counterexample: in a send loop awaiting the ACK of block 1, five
replies that are ACKs for block 2 — with not a single timeout — exhaust the
whole retry budget (MAX_RETRIES = 5) and retransmit the DATA packet five
times.  Under the claim (wrong ACK is ignored without retransmitting and
without consuming the retry budget; only a timeout consumes a retry) this
run would still be waiting after one single transmission. -/
theorem C4_wrong_ack_counterexample :
    send_wait 1 MAX_RETRIES
      [RecvEvent.pkt [0, 4, 0, 2], RecvEvent.pkt [0, 4, 0, 2], RecvEvent.pkt [0, 4, 0, 2],
       RecvEvent.pkt [0, 4, 0, 2], RecvEvent.pkt [0, 4, 0, 2]] 0
      = (SendWaitStatus.maxRetries, 5) :=
  rfl

/-- C4 amended: receiving an ACK whose block number differs from the
awaited one causes the send loop to log it and move on to the NEXT attempt
of the retry loop, which retransmits the same DATA packet and consumes one
unit of the same retry budget that timeouts consume; the block number being
awaited does not advance. -/
theorem C4_wrong_ack_consumes_retry (block_number fuel sends : Nat)
    (events : List RecvEvent) (p : List Nat) (ack_block : Nat)
    (hop : unpack_opcode p = Except.ok TFTPOpcode.ACK)
    (hack : unpack_ack p = Except.ok ack_block)
    (hne : ack_block ≠ block_number) :
    send_wait block_number (fuel + 1) (RecvEvent.pkt p :: events) sends
      = send_wait block_number fuel events (sends + 1) := by
  simp [send_wait, hop, hack, hne]

/-- Witness for C4: one wrong-block ACK at full budget. -/
theorem C4_wrong_ack_consumes_retry_witness :
    send_wait 1 5 [RecvEvent.pkt [0, 4, 0, 2]] 0 = send_wait 1 4 [] 1 :=
  C4_wrong_ack_consumes_retry 1 4 0 [] [0, 4, 0, 2] 2 rfl rfl (by decide)

/-- C5 counterexample: the client GET loop, expecting block 1, receives a
DATA packet for block 5 and ABORTS the transfer with a ProtocolError
(removing the empty destination file) instead of logging it and continuing
to wait as the claim states for every receive loop. -/
theorem C5_future_block_counterexample :
    client_get_file [RecvEvent.pkt [0, 3, 0, 5, 65]]
      = (CliOutcome.protocolError, none, []) :=
  rfl

/-- C5 amended: on a DATA packet whose block number is neither the expected
block nor the immediately-prior one, the SERVER receive loop logs the
violation and keeps waiting without acknowledging and without aborting, but
the CLIENT GET loop raises ProtocolError, aborting the transfer. -/
theorem C5_out_of_sequence_data (next_block_number bn : Nat)
    (file acks data p : List Nat) (rest : List RecvEvent)
    (hop : unpack_opcode p = Except.ok TFTPOpcode.DATA)
    (hdat : unpack_dat p = Except.ok (bn, data))
    (h1 : bn ≠ next_block_number) (h2 : bn ≠ next_block_number - 1) :
    server_receive_loop next_block_number file acks (RecvEvent.pkt p :: rest)
      = server_receive_loop next_block_number file acks rest ∧
    client_get_loop next_block_number file acks (RecvEvent.pkt p :: rest)
      = (CliOutcome.protocolError, file, acks) := by
  constructor
  · simp [server_receive_loop, hop, hdat, h1, h2]
  · simp [client_get_loop, hop, hdat, h1, h2]

/-- Witness for C5: block 5 arriving while block 1 is expected. -/
theorem C5_out_of_sequence_data_witness :
    server_receive_loop 1 [] [0] [RecvEvent.pkt [0, 3, 0, 5, 65]]
      = server_receive_loop 1 [] [0] [] ∧
    client_get_loop 1 [] [] [RecvEvent.pkt [0, 3, 0, 5, 65]]
      = (CliOutcome.protocolError, [], []) :=
  ⟨(C5_out_of_sequence_data 1 5 [] [0] [65] [0, 3, 0, 5, 65] []
      rfl rfl (by decide) (by decide)).1,
   (C5_out_of_sequence_data 1 5 [] [] [65] [0, 3, 0, 5, 65] []
      rfl rfl (by decide) (by decide)).2⟩

/-- C6: receive-failure atomicity.  For both receive operations (the server
receiving a WRQ upload and the client performing a GET), any run whose
outcome is not success — timeout, peer ERROR, protocol error or an escaped
exception — leaves no observable destination file: the finally-block
removes the partially written file before the operation returns. -/
theorem C6_receive_atomicity (events : List RecvEvent) :
    ((server_receive_file events).1 ≠ RecvOutcome.success →
      (server_receive_file events).2.1 = none) ∧
    ((client_get_file events).1.isSuccess = false →
      (client_get_file events).2.1 = none) := by
  constructor
  · intro h
    match hl : server_receive_loop 1 [] [0] events with
    | (RecvOutcome.success, file, acks) => simp [server_receive_file, hl] at h
    | (RecvOutcome.timeoutAbort, file, acks) => simp [server_receive_file, hl]
    | (RecvOutcome.peerError, file, acks) => simp [server_receive_file, hl]
    | (RecvOutcome.uncaught, file, acks) => simp [server_receive_file, hl]
  · intro h
    match hl : client_get_loop 1 [] [] events with
    | (CliOutcome.success v, file, acks) =>
      simp [client_get_file, hl, CliOutcome.isSuccess] at h
    | (CliOutcome.protocolError, file, acks) => simp [client_get_file, hl]
    | (CliOutcome.peerError, file, acks) => simp [client_get_file, hl]
    | (CliOutcome.timeoutExn, file, acks) => simp [client_get_file, hl]
    | (CliOutcome.uncaught, file, acks) => simp [client_get_file, hl]

set_option maxRecDepth 16384 in
/-- Witness for C6: a transfer that accepts one full 512-byte block and
then times out leaves no destination file, in both receive loops. -/
theorem C6_receive_atomicity_witness :
    (server_receive_file [RecvEvent.pkt ([0, 3, 0, 1] ++ List.replicate 512 66),
      RecvEvent.timeout]).2.1 = none ∧
    (client_get_file [RecvEvent.pkt ([0, 3, 0, 1] ++ List.replicate 512 66),
      RecvEvent.timeout]).2.1 = none :=
  ⟨(C6_receive_atomicity _).1 (by decide), (C6_receive_atomicity _).2 (by decide)⟩

/-- C7: the server performs no path resolution at all.  The claim says an
RRQ/WRQ whose filename escapes the server root (such as "../outside.txt")
is answered with ERROR ACCESS_VIOLATION and no transfer happens.  In
do_request the filename is only checked for ASCII-printability —
"../outside.txt" passes — and the transfer invocations are commented out,
so such a request produces NO reply whatsoever and no transfer: both the
RRQ and the WRQ for "../outside.txt" fall off the end of their branch. -/
theorem C7_path_safety_bug :
    do_request ([0, 1] ++ [46, 46, 47, 111, 117, 116, 115, 105, 100, 101, 46, 116, 120, 116]
      ++ [0] ++ DEFAULT_MODE ++ [0]) = DoReqAction.noAction ∧
    do_request ([0, 2] ++ [46, 46, 47, 111, 117, 116, 115, 105, 100, 101, 46, 116, 120, 116]
      ++ [0] ++ DEFAULT_MODE ++ [0]) = DoReqAction.noAction :=
  ⟨rfl, rfl⟩

/-- C8: the GET return value is not the number of bytes written.  A
successful GET of a 10-byte file (one DATA block, block number 1) writes 10
bytes to the local file but returns block_number * DEFAULT_BUFFER_SIZE +
len(data) = 1 * 8192 + 10 = 8202, which is not the transferred size. -/
theorem C8_return_value_bug :
    client_get_file [RecvEvent.pkt ([0, 3, 0, 1] ++ List.replicate 10 65)]
      = (CliOutcome.success 8202, some (List.replicate 10 65), [1]) ∧
    (List.replicate 10 65).length = 10 ∧ (8202 : Nat) ≠ 10 :=
  ⟨rfl, rfl, by decide⟩

/-- C9 counterexample: a 4-byte ERROR buffer — shorter than the claimed
minimum of 4 bytes plus a NUL-terminated message — decodes WITHOUT failure
to (code 1, empty message), and a 4-byte RRQ with only a single
NUL-terminated field decodes without failure to (filename "a", empty
mode): the final byte is stripped positionally, never checked to be NUL. -/
theorem C9_decoding_counterexample :
    unpack_err [0, 5, 0, 1] = Except.ok (1, []) ∧
    unpack_rrq [0, 1, 97, 0] = Except.ok ([97], []) :=
  ⟨rfl, rfl⟩

/-- C9 amended: decoding fails with a decoding error for every DATA buffer
shorter than 4 bytes, for every ACK buffer whose length is not exactly 4
bytes, for every buffer of at least 2 bytes whose opcode field does not map
to a known packet variant, for every buffer shorter than the 2-byte opcode
field, and for every RRQ and every WRQ buffer with no NUL byte at offset 2
or later; but RRQ/WRQ/ERROR buffers are NOT required to contain their full
complement of NUL-terminated fields (see the counterexample). -/
theorem C9_decoding_rejections :
    (∀ p : List Nat, p.length < 4 → ∃ e, unpack_dat p = Except.error e) ∧
    (∀ p : List Nat, p.length ≠ 4 → ∃ e, unpack_ack p = Except.error e) ∧
    (∀ (a b : Nat) (rest : List Nat), TFTPOpcode.ofValue (a * 256 + b) = none →
      unpack_opcode (a :: b :: rest) = Except.error DecodeErr.tftpValueError) ∧
    (∀ p : List Nat, p.length < 2 →
      unpack_opcode p = Except.error DecodeErr.structError) ∧
    (∀ p : List Nat, (∀ b ∈ p.drop 2, b ≠ 0) →
      (∃ e, unpack_rrq p = Except.error e) ∧ (∃ e, unpack_wrq p = Except.error e)) := by
  refine ⟨?_, ?_, ?_, ?_, ?_⟩
  · intro p hp
    refine ⟨DecodeErr.structError, ?_⟩
    match p, hp with
    | [], _ => rfl
    | [a], _ => rfl
    | [a, b], _ => rfl
    | [a, b, c], _ => rfl
    | a :: b :: c :: d :: rest, hp => ?_
    simp only [List.length_cons] at hp
    omega
  · intro p hp
    by_cases hgt : p.length > 4
    · exact ⟨DecodeErr.tftpValueError, by simp [unpack_ack, hgt]⟩
    · have hlt : p.length < 4 := by omega
      refine ⟨DecodeErr.structError, ?_⟩
      match p, hlt with
      | [], _ => rfl
      | [a], _ => rfl
      | [a, b], _ => rfl
      | [a, b, c], _ => rfl
      | a :: b :: c :: d :: rest, hlt => ?_
      simp only [List.length_cons] at hlt
      omega
  · intro a b rest h
    simp [unpack_opcode, unpack_u16, h]
  · intro p hp
    match p, hp with
    | [], _ => rfl
    | [a], _ => rfl
    | a :: b :: rest, hp => ?_
    simp only [List.length_cons] at hp
    omega
  · intro p hz
    have hidx : bytes_index_zero_from2 p = Except.error DecodeErr.valueError := by
      unfold bytes_index_zero_from2
      rw [indexOfZero_eq_none _ hz]
    have hgen : ∀ expected : TFTPOpcode, ∃ e, unpack_rq_impl expected p = Except.error e := by
      intro expected
      cases hop : unpack_opcode p with
      | error e => exact ⟨e, by simp [unpack_rq_impl, hop]⟩
      | ok received =>
        by_cases hv : received.value = expected.value
        · exact ⟨DecodeErr.valueError, by simp [unpack_rq_impl, hop, hv, hidx]⟩
        · exact ⟨DecodeErr.tftpValueError, by simp [unpack_rq_impl, hop, hv]⟩
    exact ⟨hgen TFTPOpcode.RRQ, hgen TFTPOpcode.WRQ⟩

/-- Witness for C9: each rejection instantiated at a concrete buffer. -/
theorem C9_decoding_rejections_witness :
    (∃ e, unpack_dat [0, 3, 0] = Except.error e) ∧
    (∃ e, unpack_ack [0, 4, 0, 0, 0] = Except.error e) ∧
    unpack_opcode [0, 9] = Except.error DecodeErr.tftpValueError ∧
    unpack_opcode [7] = Except.error DecodeErr.structError ∧
    (∃ e, unpack_rrq [0, 1, 97, 98] = Except.error e) ∧
    (∃ e, unpack_wrq [0, 2, 97, 98] = Except.error e) :=
  ⟨C9_decoding_rejections.1 [0, 3, 0] (by decide),
   C9_decoding_rejections.2.1 [0, 4, 0, 0, 0] (by decide),
   C9_decoding_rejections.2.2.1 0 9 [] (by decide),
   C9_decoding_rejections.2.2.2.1 [7] (by decide),
   (C9_decoding_rejections.2.2.2.2 [0, 1, 97, 98] (by decide)).1,
   (C9_decoding_rejections.2.2.2.2 [0, 2, 97, 98] (by decide)).2⟩

/-- C10: unpack_ack never inspects the opcode field — every 4-byte buffer,
whatever its first two bytes, decodes without failure to the big-endian
integer stored in bytes 2-3; in particular the 4 bytes of pack_dat(n, empty
payload), a DATA packet, decode as an ACK for block n. -/
theorem C10_unpack_ack_ignores_opcode :
    (∀ a b c d : Nat, unpack_ack [a, b, c, d] = Except.ok (c * 256 + d)) ∧
    (∀ n p, pack_dat n [] = Except.ok p → unpack_ack p = Except.ok n) := by
  constructor
  · intro a b c d
    simp [unpack_ack, unpack_u16]
  · intro n p h
    by_cases hn : n < 65536
    · simp [pack_dat, MAX_DATA_LEN, pack_u16, hn, TFTPOpcode.value] at h
      rw [← h]
      have hdm : n / 256 * 256 + n % 256 = n := by omega
      simp [unpack_ack, unpack_u16, hdm]
    · simp [pack_dat, MAX_DATA_LEN, pack_u16, hn, TFTPOpcode.value] at h

/-- Witness for C10: a DATA header decoding as an ACK. -/
theorem C10_unpack_ack_ignores_opcode_witness :
    unpack_ack [0, 3, 1, 2] = Except.ok 258 ∧ unpack_ack [0, 3, 0, 7] = Except.ok 7 :=
  ⟨C10_unpack_ack_ignores_opcode.1 0 3 1 2,
   C10_unpack_ack_ignores_opcode.2 7 [0, 3, 0, 7] rfl⟩

end TFTPy
